import Mathlib

/-!
Shallow embedding of the jwt-auth repository's token lifecycle core.

Modules embedded (from the repository's source):
* `src/jwt_auth/jwt_auth.py` — the package token module: `create_access_token`
  (with a role claim), `decode_access_token`, `store_refresh_token`
  (unconditional `setex`), `get_id_from_token`, and the boot-time `JWT_KEY`
  guard raising `TokenConfigurationError`.
* `src/jwt_auth.py` — the standalone token module: no `JWT_KEY` guard, and a
  `store_refresh_token` that writes only when the key is currently falsy.
* `src/jwt_auth/auth_router.py` — the `login`, `register`, `logout` and
  `refresh` route handlers.
* `src/jwt_auth/user_auth.py` — `hash_password`, `verify_password`,
  `check_user_by_email`, `create_user`.
* `src/db.py` — `safe_query`, which catches every exception raised while
  executing a query and returns the string "error in query execution".

Machine times are integer seconds (`Instant := Nat`); PyJWT serialises
`iat`/`exp` datetimes to integer epoch seconds.  Each `datetime.now` call in
the source is modelled as its own clock reading, since two calls need not
return the same instant.  Python values that flow through dynamically typed
positions (a JWT claim can be a string, a DB row tuple, or `None`) are
modelled by `PyVal`; Python truthiness of the values the code branches on is
modelled explicitly (`pyFalsy`, `optFalsy`, `sqlFalsy`).
-/

namespace JwtAuth

/-- Seconds since the epoch, as PyJWT stores `iat`/`exp`. -/
abbrev Instant := Nat

/-- `ACCESS_TOKEN_EXPIRE_MINUTES = 15` (src/jwt_auth/jwt_auth.py line 55). -/
def ACCESS_TOKEN_EXPIRE_MINUTES : Nat := 15

/-- `REFRESH_TOKEN_TTL_SECONDS = 60 * 60 * 24 * 14` (line 61): 14 days. -/
def REFRESH_TOKEN_TTL_SECONDS : Nat := 60 * 60 * 24 * 14

/-- A dynamically typed Python value in the positions the code leaves untyped:
`None`, a string, or a row tuple of strings (`safe_query` fetch results). -/
inductive PyVal where
  | vnone
  | vstr (s : String)
  | vrow (cells : List String)
deriving DecidableEq

/-- Python truthiness of a `PyVal`: `None`, `""` and the empty tuple are
falsy; any other string or tuple is truthy. -/
def pyFalsy : PyVal → Bool
  | .vnone => true
  | .vstr s => s = ""
  | .vrow cells => cells = []

/-- Truthiness of an optional string (`redis_client.get` returns a decoded
string or `None`; `not x` is true for `None` and `""`). -/
def optFalsy : Option String → Bool
  | none => true
  | some s => s = ""

/-- The JWT payload dict built by `create_access_token`: claims `sub`, `role`,
`iat`, `exp`, `type`.  `sub`/`role`/`type` can be absent in a foreign token
(`payload.get` then yields `None`, i.e. `PyVal.vnone`); `exp` absent means
PyJWT performs no expiry check. -/
structure Payload where
  sub : PyVal
  role : PyVal
  iat : Instant
  exp : Option Instant
  type : PyVal
deriving DecidableEq

/-- A JWT as `decode_access_token` can receive it: a payload signed under a
symmetric key (`jwt.encode(payload, key, "HS256")`), or a string that is not
structurally a signed token at all. -/
inductive Token where
  | signed (payload : Payload) (key : String)
  | malformed (raw : String)
deriving DecidableEq

/-- `create_access_token(user_id, role)` (src/jwt_auth/jwt_auth.py 68–92):
payload `{sub, role, iat = now(), exp = now() + 15 min, type = "access"}`,
signed with `JWT_KEY`.  The source calls `datetime.now` twice, once for `iat`
and once for `exp`; `t1` is the first reading, `t2` the second. -/
def create_access_token (key : String) (user_id role : PyVal)
    (t1 t2 : Instant) : Token :=
  .signed
    { sub := user_id
      role := role
      iat := t1
      exp := some (t2 + 60 * ACCESS_TOKEN_EXPIRE_MINUTES)
      type := .vstr "access" }
    key

/-- The two failure kinds `jwt.decode` raises that the code distinguishes:
`ExpiredSignatureError` and `InvalidTokenError`. -/
inductive TokenFailure where
  | expired
  | invalid
deriving DecidableEq

/-- A FastAPI `HTTPException` as raised by the code: status code and detail. -/
structure HTTPError where
  status_code : Nat
  detail : String
deriving DecidableEq

/-- `HTTPException(401, "Expired access token")` (decode, expired branch). -/
def expiredHTTP : HTTPError := ⟨401, "Expired access token"⟩

/-- `HTTPException(401, "Invalid access token")` (decode, invalid branches). -/
def invalidHTTP : HTTPError := ⟨401, "Invalid access token"⟩

/-- `HTTPException(401, "Authentication required")` (refresh endpoint). -/
def authRequired : HTTPError := ⟨401, "Authentication required"⟩

/-- `jwt.decode(token, key, ["HS256"], {"verify_exp": True})`: reject a
malformed string or a wrong-key signature with `InvalidTokenError`; then, if
an `exp` claim is present and `exp ≤ now`, raise `ExpiredSignatureError`
(PyJWT checks the signature before validating claims). -/
def jwtDecode (key : String) (now : Instant) : Token → Except TokenFailure Payload
  | .malformed _ => .error .invalid
  | .signed p k =>
    if k ≠ key then .error .invalid
    else
      match p.exp with
      | some e => if e ≤ now then .error .expired else .ok p
      | none => .ok p

/-- `decode_access_token(token, id=…, role=…)` (src/jwt_auth/jwt_auth.py
95–145): decode and verify; map `ExpiredSignatureError` to 401 "Expired
access token" and `InvalidTokenError` to 401 "Invalid access token"; raise
401 "Invalid access token" when the `sub` claim is falsy; then return the
user id if `id` is set, else the role if `role` is set, else fall through
(Python returns `None`). -/
def decode_access_token (key : String) (now : Instant) (token : Token)
    (idFlag roleFlag : Bool) : Except HTTPError PyVal :=
  match jwtDecode key now token with
  | .error .expired => .error expiredHTTP
  | .error .invalid => .error invalidHTTP
  | .ok p =>
    if pyFalsy p.sub then .error invalidHTTP
    else if idFlag then .ok p.sub
    else if roleFlag then .ok p.role
    else .ok .vnone

/-!
### Redis session store

A snapshot of the keys this core owns: an association list
`key ↦ (value, ttl-seconds-remaining)`.  `setex` replaces any entry under the
key; `get` returns the value; `delete` removes the entry.
-/

/-- The key-value store state: `(key, value, ttl)` entries, later writes in
front. -/
abbrev RedisStore := List (String × String × Nat)

/-- The entry currently stored under `k`, with its TTL. -/
def redis_entry (st : RedisStore) (k : String) : Option (String × Nat) :=
  (st.find? (fun e => e.1 == k)).map (fun e => e.2)

/-- `redis_client.get(k)`: the stored value, or `None`. -/
def redis_get (st : RedisStore) (k : String) : Option String :=
  (redis_entry st k).map (fun e => e.1)

/-- `redis_client.setex(k, ttl, v)`: write `v` under `k` with a fresh TTL,
replacing any previous entry for `k`. -/
def redis_setex (st : RedisStore) (k : String) (ttl : Nat) (v : String) :
    RedisStore :=
  (k, v, ttl) :: st.filter (fun e => e.1 ≠ k)

/-- `redis_client.delete(k)`: drop the entry under `k` (no-op when absent). -/
def redis_delete (st : RedisStore) (k : String) : RedisStore :=
  st.filter (fun e => e.1 ≠ k)

/-- `store_refresh_token` of the package module (src/jwt_auth/jwt_auth.py
163–181): unconditionally `setex("refresh:" + token, TTL, user_id)`,
overwriting any existing mapping. -/
def store_refresh_token (st : RedisStore) (refresh_token user_id : String) :
    RedisStore :=
  redis_setex st ("refresh:" ++ refresh_token) REFRESH_TOKEN_TTL_SECONDS user_id

/-- `store_refresh_token` of the standalone module (src/jwt_auth.py 148–167):
`setex` only when `redis_client.get("refresh:" + token)` is falsy (absent, or
stored value `""`); otherwise leave the store unchanged. -/
def store_refresh_token_standalone (st : RedisStore)
    (refresh_token user_id : String) : RedisStore :=
  if optFalsy (redis_get st ("refresh:" ++ refresh_token)) then
    redis_setex st ("refresh:" ++ refresh_token) REFRESH_TOKEN_TTL_SECONDS user_id
  else st

/-- `get_id_from_token(redis_client, refresh_token)` (src/jwt_auth/jwt_auth.py
184–195): `redis_client.get("refresh:" + token)`. -/
def get_id_from_token (st : RedisStore) (refresh_token : String) :
    Option String :=
  redis_get st ("refresh:" ++ refresh_token)

/-!
### Database layer (`src/db.py`)

`safe_query` runs a query on a pooled connection; an exception raised while
executing or fetching is caught and the string "error in query execution" is
returned instead.  With `insert=True` the `finally` block commits; an
exception raised by that commit is not caught and propagates to the caller.
The behaviour of one call is abstracted as `DbExec α`: the fetched row of
type `α` (or no row), or an exception during execution.
-/

/-- What the database does for one executed query fetching a row of type `α`:
return an optional row, or raise. -/
inductive DbExec (α : Type) where
  | rows (r : Option α)
  | raises
deriving DecidableEq

/-- What `safe_query` hands back to its caller: the fetched row, or the
sentinel string "error in query execution" from its `except` branch. -/
inductive SqlOutcome (α : Type) where
  | val (r : Option α)
  | errstr
deriving DecidableEq

/-- The string `safe_query` returns when query execution raises. -/
def errorSentinel : String := "error in query execution"

/-- `safe_query(query, params, fetch="one")` with `insert=False`: the fetched
row, or the sentinel string when execution raises (src/db.py 85–104). -/
def safe_query_select {α : Type} : DbExec α → SqlOutcome α
  | .rows r => .val r
  | .raises => .errstr

/-- `safe_query(query, params, fetch="one", insert=True)`: as
`safe_query_select`, except that the commit in the `finally` block runs and,
when it raises, that exception propagates out of `safe_query`. -/
def safe_query_insert {α : Type} (db : DbExec α) (commitRaises : Bool) :
    Except Unit (SqlOutcome α) :=
  if commitRaises then .error () else .ok (safe_query_select db)

/-- Truthiness of a `safe_query` fetch-one result: `None` is falsy; a fetched
row is a nonempty tuple and the sentinel a nonempty string, both truthy. -/
def sqlFalsy {α : Type} : SqlOutcome α → Bool
  | .val none => true
  | .val (some _) => false
  | .errstr => false

/-!
### User records and password utilities (`src/jwt_auth/user_auth.py`)
-/

/-- The dict `check_user_by_email` builds from the seven selected columns. -/
structure UserDict where
  id : String
  email : String
  pass_hash : String
  first_name : String
  last_name : String
  phone : String
  role : String
deriving DecidableEq

/-- `check_user_by_email(email)` (user_auth.py 130–160): run the SELECT via
`safe_query`; if the result is truthy, build the user dict from positions
0–6 and return it, else return `None`.  When `safe_query` returns its
sentinel string, the string is truthy and indexing it yields its characters:
the "user" is built from the first seven characters of
"error in query execution". -/
def check_user_by_email (db : DbExec UserDict) : Option UserDict :=
  match safe_query_select db with
  | .val (some u) =>
    some { id := u.id, email := u.email, pass_hash := u.pass_hash,
           first_name := u.first_name, last_name := u.last_name,
           phone := u.phone, role := u.role }
  | .val none => none
  | .errstr => some { id := "e", email := "r", pass_hash := "r",
                      first_name := "o", last_name := "r",
                      phone := " ", role := "i" }

/-- `AuthValidationError`: raised by `hash_password` / `verify_password` on
empty input. -/
inductive AuthError where
  | authValidationError
deriving DecidableEq

/-- `hash_password(password)` (user_auth.py 87–103): raise
`AuthValidationError` when the password is falsy, else hash it.  The Argon2
digest is abstracted as `hashFn`. -/
def hash_password (hashFn : String → String) (password : String) :
    Except AuthError String :=
  if password = "" then .error .authValidationError
  else .ok (hashFn password)

/-- `verify_password(password, hashed_password)` (user_auth.py 106–123):
raise `AuthValidationError` when either input is falsy, else ask the hashing
backend whether they match (`pwdMatches` abstracts `pwd_context.verify`). -/
def verify_password (pwdMatches : String → String → Bool)
    (password hashed_password : String) : Except AuthError Bool :=
  if password = "" ∨ hashed_password = "" then .error .authValidationError
  else .ok (pwdMatches password hashed_password)

/-- A registration payload (`RegisterRequest`). -/
structure RegisterRequest where
  email : String
  phone : String
  password : String
  first_name : String
  last_name : String
  city : String
  street : String
  state : String
  zip_code : String
deriving DecidableEq

/-- The dict `create_user` returns on success. -/
structure CreatedUser where
  created : Bool
  user_id : String
deriving DecidableEq

/-- The typed errors `create_user` raises. -/
inductive CreateUserError where
  | userAlreadyExists
  | databaseOperationError
deriving DecidableEq

/-- `create_user(credentials)` (user_auth.py 163–230): inside one `try`,
hash the password and run the INSERT … ON CONFLICT DO NOTHING … RETURNING id
via `safe_query(..., insert=True)`; any exception escaping that block —
including `AuthValidationError` from `hash_password` (raised before the
database is reached) and a commit-time failure — is re-raised as
`DatabaseOperationError`.  A falsy returned row raises
`UserAlreadyExistsError`; otherwise the result is
`{created: True, user_id: row[0]}`.  When `safe_query` swallowed an execution
failure and returned its sentinel string, the row is that truthy string and
`row[0]` is its first character "e". -/
def create_user (hashFn : String → String) (db : DbExec String)
    (commitRaises : Bool) (credentials : RegisterRequest) :
    Except CreateUserError CreatedUser :=
  match hash_password hashFn credentials.password with
  | .error _ => .error .databaseOperationError
  | .ok _ =>
    match safe_query_insert db commitRaises with
    | .error _ => .error .databaseOperationError
    | .ok row =>
      if sqlFalsy row then .error .userAlreadyExists
      else
        match row with
        | .val (some theId) => .ok { created := true, user_id := theId }
        | .errstr => .ok { created := true, user_id := "e" }
        | .val none => .error .userAlreadyExists

/-!
### Route handlers (`src/jwt_auth/auth_router.py`)

Each handler is a function of its request data plus the external behaviours
it consults: the user database (`DbExec` results per query), the password
backend, the signing key, the clock readings consumed by
`create_access_token`, the freshly generated refresh token
(`secrets.token_urlsafe(32)` is a free parameter), and the Redis store
snapshot.  A handler returns its HTTP outcome together with the store it
leaves behind.
-/

/-- The response body of a successful login. -/
structure LoginResponse where
  access_token : Token
  role : String
  first_name : String
  last_name : String
  status : String
deriving DecidableEq

/-- The refresh-token cookie `login` sets on the response. -/
structure Cookie where
  key : String
  value : String
  httponly : Bool
  secure : Bool
  samesite : String
  path : String
deriving DecidableEq

/-- How a login request can fail: a raised `HTTPException`, or an
`AuthValidationError` from `verify_password` that no handler catches (the
route's `try` only catches `InvalidCredentialsError`). -/
inductive LoginFail where
  | http (e : HTTPError)
  | unhandledValidation
deriving DecidableEq

/-- `HTTPException(401, "Invalid email or password")`: the one outcome for
both an unknown email and a wrong password. -/
def invalidCredentialsHTTP : HTTPError := ⟨401, "Invalid email or password"⟩

/-- `login(credentials, response)` (auth_router.py 59–114): look the user up
by email; when the user is falsy or `verify_password` returns false, raise
`InvalidCredentialsError`, caught and turned into the 401.  On success mint
an access token from the stored id and role, generate and store a refresh
token (package `store_refresh_token`), set the HttpOnly cookie, and return
the response body.  An `AuthValidationError` raised by `verify_password`
(empty password or empty stored hash) escapes the handler uncaught. -/
def login (userDb : String → DbExec UserDict)
    (pwdMatches : String → String → Bool) (key : String) (t1 t2 : Instant)
    (new_refresh : String) (st : RedisStore) (email password : String) :
    Except LoginFail (LoginResponse × Cookie) × RedisStore :=
  match check_user_by_email (userDb email) with
  | none => (.error (.http invalidCredentialsHTTP), st)
  | some user =>
    match verify_password pwdMatches password user.pass_hash with
    | .error _ => (.error .unhandledValidation, st)
    | .ok false => (.error (.http invalidCredentialsHTTP), st)
    | .ok true =>
      (.ok
        ({ access_token :=
             create_access_token key (.vstr user.id) (.vstr user.role) t1 t2
           role := user.role
           first_name := user.first_name
           last_name := user.last_name
           status := "logged in" },
         { key := "refresh_token", value := new_refresh, httponly := true,
           secure := true, samesite := "strict", path := "/auth" }),
       store_refresh_token st new_refresh user.id)

/-- `register(credentials)` (auth_router.py 121–155): call `create_user`;
map `UserAlreadyExistsError` to `HTTPException(409, "Email already
registered")` and `DatabaseOperationError` to `HTTPException(500, "Internal
server error")`; on success return `{"status": "user created"}`. -/
def register (hashFn : String → String) (db : DbExec String)
    (commitRaises : Bool) (credentials : RegisterRequest) :
    Except HTTPError String :=
  match create_user hashFn db commitRaises credentials with
  | .error .userAlreadyExists => .error ⟨409, "Email already registered"⟩
  | .error .databaseOperationError => .error ⟨500, "Internal server error"⟩
  | .ok _ => .ok "user created"

/-- `logout(response, refresh_token)` (auth_router.py 162–182): when the
cookie is truthy, delete `refresh:<token>` from Redis (and clear the
cookie); always return `{"status": "logged out"}`. -/
def logout (st : RedisStore) (refresh_token : Option String) :
    String × RedisStore :=
  if optFalsy refresh_token then ("logged out", st)
  else
    ("logged out", redis_delete st ("refresh:" ++ (refresh_token.getD "")))

/-- The response body of a successful refresh. -/
structure RefreshResponse where
  access_token : Token
  token_type : String
deriving DecidableEq

/-- The `role` value the refresh handler passes to `create_access_token`: the
raw `safe_query` fetch-one result — a one-element row tuple for a found role,
the sentinel string when the query raised, `None` (unreachable past the falsy
check) when no row matched. -/
def roleValue : SqlOutcome String → PyVal
  | .val (some r) => .vrow [r]
  | .val none => .vnone
  | .errstr => .vstr errorSentinel

/-- `refresh(refresh_token)` (auth_router.py 189–225): 401 "Authentication
required" when the cookie is falsy; look the token up in Redis and the role
up via `safe_query` (the role query runs whatever the lookup returned); 401
again when the user id or the role result is falsy; otherwise mint an access
token from the id and the raw role query result and return it with
`token_type = "bearer"`.  No store write of any kind is performed. -/
def refresh (key : String) (t1 t2 : Instant) (st : RedisStore)
    (roleDb : Option String → DbExec String) (cookie : Option String) :
    Except HTTPError RefreshResponse × RedisStore :=
  if optFalsy cookie then (.error authRequired, st)
  else
    let tok := cookie.getD ""
    let user_id := get_id_from_token st tok
    let role := safe_query_select (roleDb user_id)
    if optFalsy user_id || sqlFalsy role then (.error authRequired, st)
    else
      (.ok
        { access_token :=
            create_access_token key (.vstr (user_id.getD "")) (roleValue role)
              t1 t2
          token_type := "bearer" },
       st)

/-!
### Module initialization (`JWT_KEY` handling)

`src/jwt_auth/jwt_auth.py` lines 47–50 read `JWT_KEY` from the environment
and raise `TokenConfigurationError` at import time when it is falsy.
`src/jwt_auth.py` lines 32–36 read the same variable but perform no check.
-/

/-- The outcome of importing a token module. -/
inductive InitResult where
  | ok
  | configError
deriving DecidableEq

/-- Import-time behaviour of the package module `src/jwt_auth/jwt_auth.py`:
`if not JWT_KEY: raise TokenConfigurationError("JWT_KEY is not configured")`.
`env_key` is `os.getenv("JWT_KEY")`: `none` when the variable is unset. -/
def init_jwt_auth_pkg (env_key : Option String) : InitResult :=
  if optFalsy env_key then .configError else .ok

/-- Import-time behaviour of the standalone module `src/jwt_auth.py`: it
assigns `JWT_KEY = os.getenv("JWT_KEY")` and performs no check, so the import
succeeds whatever the environment holds. -/
def init_jwt_auth_standalone (_env_key : Option String) : InitResult := .ok

/-!
### Statement vocabulary

Decidable formulations of the conditions the claims quantify over, used in
the theorem statements below.
-/

/-- The condition under which the spec says validation fails with
`TokenExpired`: the signature verifies (the token is structurally a JWT
signed under the expected key) and the expiry instant has passed. -/
def expiredCondition (key : String) (now : Instant) : Token → Bool
  | .signed p k => k == key && (match p.exp with
      | some e => e ≤ now
      | none => false)
  | .malformed _ => false

/-- The condition under which the spec says validation fails with
`TokenInvalid`: the expired case does not apply, and the string is malformed,
the signature fails verification, or the `sub` claim is absent. -/
def invalidCondition (key : String) (now : Instant) (t : Token) : Bool :=
  !expiredCondition key now t &&
    (match t with
     | .malformed _ => true
     | .signed p k => k ≠ key || p.sub = .vnone)

/-- Whether an endpoint outcome is a success (no exception raised). -/
def exceptOk {ε α : Type} : Except ε α → Bool
  | .ok _ => true
  | .error _ => false

/-!
## Theorems
-/

/-- Claim C8, amended: for every subject id, role and pair of clock readings,
`create_access_token` produces a signed token whose payload contains exactly
the subject id, the role, the issued-at instant (the first clock reading),
an expiry instant equal to the second clock reading plus 15 minutes, and the
fixed type discriminator "access"; when the clock does not advance between
the two readings, the expiry equals the issued-at instant plus 15 minutes. -/
theorem c8_mint_payload_exact (key : String) (u r : PyVal) (t1 t2 : Instant) :
    create_access_token key u r t1 t2 =
      .signed { sub := u, role := r, iat := t1,
                exp := some (t2 + 60 * ACCESS_TOKEN_EXPIRE_MINUTES),
                type := .vstr "access" } key ∧
    create_access_token key u r t1 t1 =
      .signed { sub := u, role := r, iat := t1,
                exp := some (t1 + 60 * ACCESS_TOKEN_EXPIRE_MINUTES),
                type := .vstr "access" } key :=
  ⟨rfl, rfl⟩

/-- Claim C8, counterexample to the claim as stated: `iat` and `exp` come
from two separate `datetime.now()` calls; when the clock advances by one
second between them (first reading 0, second reading 1), the minted payload's
expiry is 901, which is not the issued-at instant plus 15 minutes (900). -/
theorem c8_two_clock_reads_counterexample :
    create_access_token "k" (.vstr "u1") (.vstr "client") 0 1 =
      .signed { sub := .vstr "u1", role := .vstr "client", iat := 0,
                exp := some 901, type := .vstr "access" } "k" ∧
    (901 : Nat) ≠ 0 + 60 * ACCESS_TOKEN_EXPIRE_MINUTES := by
  decide

/-- Claim C1, amended: for every non-empty subject id and every role,
decoding the token minted for them — immediately after minting, before the
expiry instant — succeeds and returns the same subject id (with the default
`id=True` flag) and the same role (with `id=False, role=True`). -/
theorem c1_validate_mint_roundtrip (key u r : String) (t1 t2 now : Instant)
    (hu : u ≠ "") (hnow : now < t2 + 60 * ACCESS_TOKEN_EXPIRE_MINUTES) :
    decode_access_token key now
        (create_access_token key (.vstr u) (.vstr r) t1 t2) true false =
      .ok (.vstr u) ∧
    decode_access_token key now
        (create_access_token key (.vstr u) (.vstr r) t1 t2) false true =
      .ok (.vstr r) := by
  have hexp : ¬ (t2 + 60 * ACCESS_TOKEN_EXPIRE_MINUTES ≤ now) :=
    Nat.not_le.mpr hnow
  simp [decode_access_token, create_access_token, jwtDecode, pyFalsy, hexp, hu]

/-- Claim C1, witness: the round trip at subject "u1", role "client", minted
and validated at instant 0. -/
theorem c1_validate_mint_roundtrip_witness :
    decode_access_token "k" 0
        (create_access_token "k" (.vstr "u1") (.vstr "client") 0 0) true false =
      .ok (.vstr "u1") ∧
    decode_access_token "k" 0
        (create_access_token "k" (.vstr "u1") (.vstr "client") 0 0) false true =
      .ok (.vstr "client") :=
  c1_validate_mint_roundtrip "k" "u1" "client" 0 0 0 (by decide) (by decide)

/-- Claim C1, counterexample to the claim as stated: for the empty subject id
the minted token does not validate — `decode_access_token` treats the falsy
`sub` claim as invalid and raises 401 "Invalid access token". -/
theorem c1_empty_subject_counterexample :
    decode_access_token "k" 0
        (create_access_token "k" (.vstr "") (.vstr "client") 0 0) true false =
      .error invalidHTTP ∧
    (Except.error invalidHTTP : Except HTTPError PyVal) ≠ .ok (.vstr "") :=
  ⟨rfl, by simp⟩

/-- `decode_access_token` answers the expired 401 exactly under
`expiredCondition` (signature verifies, expiry passed), whatever the flags. -/
theorem decode_eq_expired_iff (key : String) (now : Instant) (t : Token)
    (iF rF : Bool) :
    decode_access_token key now t iF rF = .error expiredHTTP ↔
      expiredCondition key now t = true := by
  cases t with
  | malformed raw =>
    simp [decode_access_token, jwtDecode, expiredCondition, expiredHTTP,
      invalidHTTP]
  | signed p k =>
    by_cases hk : k = key
    · cases hexp : p.exp with
      | none =>
        by_cases hs : pyFalsy p.sub = true <;>
          cases iF <;> cases rF <;>
            simp [decode_access_token, jwtDecode, expiredCondition, hk, hexp,
              hs, expiredHTTP, invalidHTTP]
      | some e =>
        by_cases he : e ≤ now
        · simp [decode_access_token, jwtDecode, expiredCondition, hk, hexp, he]
        · by_cases hs : pyFalsy p.sub = true <;>
            cases iF <;> cases rF <;>
              simp [decode_access_token, jwtDecode, expiredCondition, hk, hexp,
                he, hs, expiredHTTP, invalidHTTP]
    · simp [decode_access_token, jwtDecode, expiredCondition, hk, expiredHTTP,
        invalidHTTP]

/-- `decode_access_token` answers the invalid 401 under `invalidCondition`
(not the expired case, and malformed, badly signed, or subject absent). -/
theorem decode_invalid_of (key : String) (now : Instant) (t : Token)
    (iF rF : Bool) (h : invalidCondition key now t = true) :
    decode_access_token key now t iF rF = .error invalidHTTP := by
  cases t with
  | malformed raw => simp [decode_access_token, jwtDecode]
  | signed p k =>
    by_cases hk : k = key
    · cases hexp : p.exp with
      | none =>
        simp [invalidCondition, expiredCondition, hk, hexp] at h
        simp [decode_access_token, jwtDecode, hk, hexp, h, pyFalsy]
      | some e =>
        simp [invalidCondition, expiredCondition, hk, hexp] at h
        have he : ¬ (e ≤ now) := Nat.not_le.mpr h.1
        simp [decode_access_token, jwtDecode, hk, hexp, he, h.2, pyFalsy]
    · simp [decode_access_token, jwtDecode, hk]

/-- Claim C2: validation fails with the expired 401 exactly when the
signature verifies and the expiry instant has passed; it fails with the
invalid 401 whenever that is not so and the token is malformed, the
signature fails verification, or the subject claim is absent; and the two
failure responses are distinguishable (different detail strings). -/
theorem c2_failure_kinds (key : String) (now : Instant) (t : Token)
    (idFlag roleFlag : Bool) :
    (decode_access_token key now t idFlag roleFlag = .error expiredHTTP ↔
      expiredCondition key now t = true) ∧
    (invalidCondition key now t = true →
      decode_access_token key now t idFlag roleFlag = .error invalidHTTP) ∧
    expiredHTTP ≠ invalidHTTP :=
  ⟨decode_eq_expired_iff key now t idFlag roleFlag,
   fun h => decode_invalid_of key now t idFlag roleFlag h,
   by decide⟩

/-- Claim C2, witness: a well-signed token whose expiry (5) has passed by
instant 1000 is reported expired, via the exactly-when direction. -/
theorem c2_failure_kinds_witness :
    decode_access_token "k" 1000
        (.signed { sub := .vstr "u1", role := .vstr "client", iat := 0,
                   exp := some 5, type := .vstr "access" } "k") true false =
      .error expiredHTTP :=
  (c2_failure_kinds "k" 1000
      (.signed { sub := .vstr "u1", role := .vstr "client", iat := 0,
                 exp := some 5, type := .vstr "access" } "k") true false).1.mpr
    (by decide)

/-- Claim C3, amended: for every email and every non-empty password, against
a store whose password hashes are non-empty, login with an email that matches
no user and login with a known email but a non-matching password produce the
identical outcome — the raised `HTTPException(401, "Invalid email or
password")` — with no observable difference between the two causes.  (With an
empty submitted password the two causes are observably different: see the
counterexample.) -/
theorem c3_login_indistinguishable (userDb : String → DbExec UserDict)
    (pwdMatches : String → String → Bool) (key : String) (t1 t2 : Instant)
    (new_refresh : String) (st : RedisStore) (email1 email2 password : String)
    (u : UserDict) (h1 : userDb email1 = .rows none)
    (h2 : userDb email2 = .rows (some u)) (hpw : password ≠ "")
    (hhash : u.pass_hash ≠ "")
    (hmatch : pwdMatches password u.pass_hash = false) :
    (login userDb pwdMatches key t1 t2 new_refresh st email1 password).1 =
      .error (.http invalidCredentialsHTTP) ∧
    (login userDb pwdMatches key t1 t2 new_refresh st email2 password).1 =
      .error (.http invalidCredentialsHTTP) := by
  constructor
  · simp [login, check_user_by_email, safe_query_select, h1]
  · simp [login, check_user_by_email, safe_query_select, h2, verify_password,
      hpw, hhash, hmatch]

/-- Claim C3, witness: a one-user store; unknown email and known email with a
wrong (non-empty) password both yield the same 401. -/
theorem c3_login_indistinguishable_witness :
    (login
        (fun e => if e = "a@x.com" then
          .rows (some { id := "u1", email := "a@x.com", pass_hash := "h1",
                        first_name := "A", last_name := "B", phone := "5",
                        role := "client" })
         else .rows none)
        (fun _ _ => false) "k" 0 0 "rt" [] "b@x.com" "wrong").1 =
      .error (.http invalidCredentialsHTTP) ∧
    (login
        (fun e => if e = "a@x.com" then
          .rows (some { id := "u1", email := "a@x.com", pass_hash := "h1",
                        first_name := "A", last_name := "B", phone := "5",
                        role := "client" })
         else .rows none)
        (fun _ _ => false) "k" 0 0 "rt" [] "a@x.com" "wrong").1 =
      .error (.http invalidCredentialsHTTP) :=
  c3_login_indistinguishable
    (fun e => if e = "a@x.com" then
      .rows (some { id := "u1", email := "a@x.com", pass_hash := "h1",
                    first_name := "A", last_name := "B", phone := "5",
                    role := "client" })
     else .rows none)
    (fun _ _ => false) "k" 0 0 "rt" [] "b@x.com" "a@x.com" "wrong"
    { id := "u1", email := "a@x.com", pass_hash := "h1", first_name := "A",
      last_name := "B", phone := "5", role := "client" }
    (by simp) (by simp) (by simp) (by simp) rfl

/-- Claim C3, counterexample to the claim as stated: with the empty password
the two causes are observably different.  Login with the known email raises
`AuthValidationError` out of `verify_password`, which the route does not
catch (an unhandled 500, not the 401), while login with an unknown email
still yields the 401 — so the outcomes differ. -/
theorem c3_empty_password_counterexample :
    (login
        (fun e => if e = "a@x.com" then
          .rows (some { id := "u1", email := "a@x.com", pass_hash := "h1",
                        first_name := "A", last_name := "B", phone := "5",
                        role := "client" })
         else .rows none)
        (fun _ _ => false) "k" 0 0 "rt" [] "a@x.com" "").1 =
      .error .unhandledValidation ∧
    (login
        (fun e => if e = "a@x.com" then
          .rows (some { id := "u1", email := "a@x.com", pass_hash := "h1",
                        first_name := "A", last_name := "B", phone := "5",
                        role := "client" })
         else .rows none)
        (fun _ _ => false) "k" 0 0 "rt" [] "b@x.com" "").1 =
      .error (.http invalidCredentialsHTTP) ∧
    (LoginFail.unhandledValidation ≠ .http invalidCredentialsHTTP) := by
  refine ⟨?_, ?_, by simp⟩
  · simp [login, check_user_by_email, safe_query_select, verify_password]
  · simp [login, check_user_by_email, safe_query_select]

/-- Claim C4: the refresh operation fails with the identical
`HTTPException(401, "Authentication required")` in all three cases — the
refresh-token cookie absent, the token not resolving to a user id in the
store, and the token resolving while the role lookup returns no row. -/
theorem c4_refresh_uniform_401 (key : String) (t1 t2 : Instant)
    (st : RedisStore) (roleDb : Option String → DbExec String)
    (tok uid : String) :
    (refresh key t1 t2 st roleDb none).1 = .error authRequired ∧
    (get_id_from_token st tok = none →
      (refresh key t1 t2 st roleDb (some tok)).1 = .error authRequired) ∧
    (get_id_from_token st tok = some uid → uid ≠ "" →
      roleDb (some uid) = .rows none →
      (refresh key t1 t2 st roleDb (some tok)).1 = .error authRequired) := by
  refine ⟨by simp [refresh, optFalsy], ?_, ?_⟩
  · intro habs
    by_cases htok : tok = ""
    · simp [refresh, optFalsy, htok]
    · simp [refresh, optFalsy, htok, habs]
  · intro hres huid hrole
    by_cases htok : tok = ""
    · simp [refresh, optFalsy, htok]
    · simp [refresh, optFalsy, htok, hres, huid, hrole, safe_query_select,
        sqlFalsy]

/-- Claim C4, witness: a store holding `refresh:abc ↦ u1` whose role query
returns no row: the refresh call answers the 401. -/
theorem c4_refresh_uniform_401_witness :
    (refresh "k" 0 0 [("refresh:abc", "u1", 5)] (fun _ => .rows none)
        (some "abc")).1 = .error authRequired :=
  (c4_refresh_uniform_401 "k" 0 0 [("refresh:abc", "u1", 5)]
      (fun _ => .rows none) "abc" "u1").2.2
    (by simp [get_id_from_token, redis_get, redis_entry, List.find?])
    (by simp) rfl

/-- Claim C5, evaluation at the failing inputs.  (1) When query execution
raises, `safe_query` swallows the exception and returns its truthy sentinel
string, so `create_user` reports success and `register` answers 200
`"user created"` — with `user_id` the character "e", the sentinel's first —
instead of surfacing `DatabaseOperationError` (500).  (2) An empty password
makes `hash_password` raise before any database call, but `create_user`'s
blanket `except` re-raises it as `DatabaseOperationError`, so `register`
answers the 500, not a validation error.  (3) The zero-rows conflict path
does answer 409 as the claim states. -/
theorem c5_register_divergences :
    register (fun p => p) .raises false
      { email := "a@x.com", phone := "555", password := "Secret1",
        first_name := "A", last_name := "B", city := "C", street := "S",
        state := "ST", zip_code := "0" } = .ok "user created" ∧
    create_user (fun p => p) .raises false
      { email := "a@x.com", phone := "555", password := "Secret1",
        first_name := "A", last_name := "B", city := "C", street := "S",
        state := "ST", zip_code := "0" } =
      .ok { created := true, user_id := "e" } ∧
    register (fun p => p) (.rows (some "uuid-1")) false
      { email := "a@x.com", phone := "555", password := "",
        first_name := "A", last_name := "B", city := "C", street := "S",
        state := "ST", zip_code := "0" } =
      .error ⟨500, "Internal server error"⟩ ∧
    register (fun p => p) (.rows none) false
      { email := "a@x.com", phone := "555", password := "Secret1",
        first_name := "A", last_name := "B", city := "C", street := "S",
        state := "ST", zip_code := "0" } =
      .error ⟨409, "Email already registered"⟩ :=
  ⟨rfl, rfl, rfl, rfl⟩

/-- Claim C6, amended: when no mapping for the token is present, the two
`store_refresh_token` implementations produce the same resulting store
state, and both leave `refresh:<token> ↦ user_id` with the 14-day TTL; the
two results can differ only when a mapping for that token already exists
(and even then they coincide when the stored entry already equals the fresh
one — see the counterexample). -/
theorem c6_store_refresh_equiv (st : RedisStore) (tok uid : String) :
    (redis_get st ("refresh:" ++ tok) = none →
      store_refresh_token st tok uid = store_refresh_token_standalone st tok uid ∧
      redis_entry (store_refresh_token st tok uid) ("refresh:" ++ tok) =
        some (uid, REFRESH_TOKEN_TTL_SECONDS) ∧
      redis_entry (store_refresh_token_standalone st tok uid)
          ("refresh:" ++ tok) =
        some (uid, REFRESH_TOKEN_TTL_SECONDS)) ∧
    (store_refresh_token st tok uid ≠ store_refresh_token_standalone st tok uid →
      ¬ redis_get st ("refresh:" ++ tok) = none) := by
  constructor
  · intro h
    have heq : store_refresh_token st tok uid =
        store_refresh_token_standalone st tok uid := by
      simp [store_refresh_token, store_refresh_token_standalone, optFalsy, h]
    refine ⟨heq, ?_, ?_⟩
    · simp [store_refresh_token, redis_entry, redis_setex, List.find?]
    · rw [← heq]
      simp [store_refresh_token, redis_entry, redis_setex, List.find?]
  · intro hne h
    exact hne (by
      simp [store_refresh_token, store_refresh_token_standalone, optFalsy, h])

/-- Claim C6, witness: on the empty store the two implementations agree. -/
theorem c6_store_refresh_equiv_witness :
    store_refresh_token [] "t" "u" = store_refresh_token_standalone [] "t" "u" :=
  ((c6_store_refresh_equiv [] "t" "u").1
    (by simp [redis_get, redis_entry, List.find?])).1

/-- Claim C6, counterexample to the claim as stated ("they differ exactly
when a mapping for that token already exists"): when the existing entry for
the token is already `(user_id, 14-day TTL)`, a mapping exists and yet the
two implementations produce identical store states — the unconditional
`setex` rewrites the entry to exactly what was there. -/
theorem c6_existing_identical_entry_counterexample :
    store_refresh_token [("refresh:t", "u", 1209600)] "t" "u" =
      store_refresh_token_standalone [("refresh:t", "u", 1209600)] "t" "u" ∧
    redis_get [("refresh:t", "u", 1209600)] ("refresh:" ++ "t") ≠ none := by
  decide

/-- Claim C7: a refresh call leaves the session store unchanged — it
performs no write, re-persist, rotation or deletion — and consequently after
a successful refresh the same cookie still succeeds on a later refresh call
(any later clock readings), as long as the store and the role lookup are as
before. -/
theorem c7_refresh_frame (key : String) (t1 t2 : Instant) (st : RedisStore)
    (roleDb : Option String → DbExec String) (cookie : Option String) :
    (refresh key t1 t2 st roleDb cookie).2 = st ∧
    (∀ t3 t4 : Instant,
      exceptOk (refresh key t1 t2 st roleDb cookie).1 = true →
      exceptOk (refresh key t3 t4 (refresh key t1 t2 st roleDb cookie).2
          roleDb cookie).1 = true) := by
  have h2 : (refresh key t1 t2 st roleDb cookie).2 = st := by
    by_cases hc : optFalsy cookie = true
    · simp [refresh, hc]
    · simp only [refresh, hc]
      split <;> first
        | rfl
        | (split <;> rfl)
  refine ⟨h2, ?_⟩
  intro t3 t4 hok
  rw [h2]
  by_cases hc : optFalsy cookie = true
  · exfalso
    simp [refresh, hc, exceptOk] at hok
  · by_cases hcond :
      (optFalsy (get_id_from_token st (cookie.getD "")) ||
        sqlFalsy (safe_query_select
          (roleDb (get_id_from_token st (cookie.getD ""))))) = true
    · exfalso
      simp [refresh, hc, hcond, exceptOk] at hok
    · simp [refresh, hc, hcond, exceptOk]

/-- Claim C7, witness: a successful refresh against a one-entry store leaves
the store as it was, and repeating the call still succeeds. -/
theorem c7_refresh_frame_witness :
    (refresh "k" 0 0 [("refresh:abc", "u1", 5)]
        (fun _ => .rows (some "client")) (some "abc")).2 =
      [("refresh:abc", "u1", 5)] ∧
    exceptOk (refresh "k" 1 1
        (refresh "k" 0 0 [("refresh:abc", "u1", 5)]
          (fun _ => .rows (some "client")) (some "abc")).2
        (fun _ => .rows (some "client")) (some "abc")).1 = true :=
  ⟨(c7_refresh_frame "k" 0 0 [("refresh:abc", "u1", 5)]
      (fun _ => .rows (some "client")) (some "abc")).1,
   (c7_refresh_frame "k" 0 0 [("refresh:abc", "u1", 5)]
      (fun _ => .rows (some "client")) (some "abc")).2 1 1 (by decide)⟩

/-- Claim C9, amended: the package token module (src/jwt_auth/jwt_auth.py)
fails fast at import with `TokenConfigurationError` when the signing key is
missing or empty and initializes otherwise; the standalone token module
(src/jwt_auth.py) performs no such check and initializes successfully even
with the key absent. -/
theorem c9_key_guard :
    init_jwt_auth_pkg none = .configError ∧
    init_jwt_auth_pkg (some "") = .configError ∧
    (∀ s : String, s ≠ "" → init_jwt_auth_pkg (some s) = .ok) ∧
    init_jwt_auth_standalone none = .ok := by
  refine ⟨rfl, rfl, ?_, rfl⟩
  intro s hs
  simp [init_jwt_auth_pkg, optFalsy, hs]

/-- Claim C9, witness: with a non-empty key the package module boots. -/
theorem c9_key_guard_witness : init_jwt_auth_pkg (some "secret") = .ok :=
  c9_key_guard.2.2.1 "secret" (by decide)

/-- Claim C9, counterexample to the claim as stated: the standalone token
module initializes successfully with the signing key absent, so the fail-fast
guard does not hold for every module that signs or verifies tokens. -/
theorem c9_standalone_no_guard_counterexample :
    init_jwt_auth_standalone none = .ok ∧
    (InitResult.ok ≠ InitResult.configError) :=
  ⟨rfl, by decide⟩

/-- Claim C10: when query execution raises, `safe_query` propagates no
exception: it returns the truthy sentinel string "error in query execution".
Consequently `check_user_by_email` returns a present user dict (built from
the sentinel's characters), and the refresh handler's role lookup receives a
truthy value, passes the falsy check, and mints an access token whose role is
the sentinel string rather than failing. -/
theorem c10_safe_query_error_sentinel (key : String) (t1 t2 : Instant)
    (st : RedisStore) (tok uid : String) (htok : tok ≠ "")
    (hres : get_id_from_token st tok = some uid) (huid : uid ≠ "") :
    safe_query_select (DbExec.raises : DbExec String) = .errstr ∧
    errorSentinel ≠ "" ∧
    sqlFalsy (safe_query_select (DbExec.raises : DbExec String)) = false ∧
    check_user_by_email (DbExec.raises : DbExec UserDict) =
      some { id := "e", email := "r", pass_hash := "r", first_name := "o",
             last_name := "r", phone := " ", role := "i" } ∧
    (refresh key t1 t2 st (fun _ => DbExec.raises) (some tok)).1 =
      .ok { access_token :=
              create_access_token key (.vstr uid) (.vstr errorSentinel) t1 t2,
            token_type := "bearer" } := by
  refine ⟨rfl, by decide, rfl, rfl, ?_⟩
  simp [refresh, optFalsy, htok, hres, safe_query_select, sqlFalsy, roleValue,
    huid]

/-- Claim C10, witness: a store resolving the cookie to user "u1" whose role
query raises: refresh succeeds and the minted token's role claim is the
sentinel string. -/
theorem c10_safe_query_error_sentinel_witness :
    (refresh "k" 0 0 [("refresh:abc", "u1", 5)] (fun _ => DbExec.raises)
        (some "abc")).1 =
      .ok { access_token :=
              create_access_token "k" (.vstr "u1") (.vstr errorSentinel) 0 0,
            token_type := "bearer" } :=
  (c10_safe_query_error_sentinel "k" 0 0 [("refresh:abc", "u1", 5)] "abc" "u1"
    (by decide)
    (by simp [get_id_from_token, redis_get, redis_entry, List.find?])
    (by decide)).2.2.2.2

end JwtAuth
